import Mathlib

/-!
Shallow embedding of the Palmertech web application's business logic
(`pricing.py`, the contact-form submission gate and requirements endpoint of
`app.py`, and `services/sendgrid_mailer.py`), together with theorems settling
the specification claims about it.

Python `Decimal` values are modelled as exact rationals (`ℚ`); the repository
only ever multiplies and adds small decimal constants, so its `Decimal`
arithmetic (28 significant digits) is exact and the `ℚ` model is faithful.
Timestamps are modelled as rational seconds.  Fallible operations return
`Except`, and external effects (mail provider responses, CAPTCHA verdicts)
enter as explicit parameters.
-/

/-! ## pricing.py -/

/-- Constant `BASE_RATE = Decimal("25.00")` from `pricing.py`. -/
def BASE_RATE : ℚ := 25

/-- Constant `START_YEAR = 2025` from `pricing.py`. -/
def START_YEAR : ℤ := 2025

/-- Constant `BASE_APP_FEE = Decimal("25.00")` from `pricing.py`. -/
def BASE_APP_FEE : ℚ := 25

/-- Constant `PER_PAGE_FEE = Decimal("10.00")` from `pricing.py`. -/
def PER_PAGE_FEE : ℚ := 10

/-- Constant `MAX_RATE = Decimal("40.00")` from `pricing.py`. -/
def MAX_RATE : ℚ := 40

/-- Constant `FIRST_YEAR_INCREASE = Decimal("1.05")` from `pricing.py`. -/
def FIRST_YEAR_INCREASE : ℚ := 105 / 100

/-- Constant `SUBSEQUENT_INCREASE = Decimal("1.10")` from `pricing.py`. -/
def SUBSEQUENT_INCREASE : ℚ := 11 / 10

/-- Embedding of `pricing._quantise`: `value.quantize(Decimal("0.01"),
rounding=ROUND_HALF_UP)`, i.e. rounding to hundredths with ties going away
from zero. -/
def quantise (v : ℚ) : ℚ :=
  if 0 ≤ v then ((⌊v * 100 + 1 / 2⌋ : ℤ) : ℚ) / 100
  else -(((⌊-v * 100 + 1 / 2⌋ : ℤ) : ℚ) / 100)

/-- Embedding of the loop body of `pricing.current_rate` (lines 34-41):
starting from `rate`, perform `k` further multiplications by
`SUBSEQUENT_INCREASE`, returning the quantised cap as soon as the running
value reaches or exceeds `MAX_RATE`, and otherwise the quantised running
value clamped to the cap at the end. -/
def rateLoop : ℚ → ℕ → ℚ
  | rate, 0 => quantise (if rate ≤ MAX_RATE then rate else MAX_RATE)
  | rate, k + 1 =>
    if MAX_RATE ≤ rate * SUBSEQUENT_INCREASE then quantise MAX_RATE
    else rateLoop (rate * SUBSEQUENT_INCREASE) k

/-- The `years_elapsed = max(0, today.year - START_YEAR)` computation of
`pricing.current_rate`; the reference date enters only through its year. -/
def yearsElapsed (year : ℤ) : ℤ := max 0 (year - START_YEAR)

/-- Embedding of `pricing.current_rate`, indexed by the year of the reference
date.  For `years_elapsed ≥ 2` the Python `for` loop runs
`range(1, years_elapsed - 1)`, i.e. `years_elapsed - 2` iterations, starting
from `BASE_RATE * SUBSEQUENT_INCREASE`. -/
def current_rate (year : ℤ) : ℚ :=
  if yearsElapsed year = 0 then quantise BASE_RATE
  else if yearsElapsed year = 1 then quantise (BASE_RATE * FIRST_YEAR_INCREASE)
  else rateLoop (BASE_RATE * SUBSEQUENT_INCREASE) (yearsElapsed year - 2).toNat

/-- Modelled from the spec's words (for the refinement claim C1, to be
compared with `current_rate`): base rate at zero elapsed years, base × 1.05
at one, and for two or more elapsed years base × 1.10 compounded by a further
× 1.10 per elapsed year beyond the second, clamped to the smaller of the
computed value and the cap, everything rounded half-up to 2 decimals. -/
def current_rate_spec (year : ℤ) : ℚ :=
  if yearsElapsed year = 0 then quantise BASE_RATE
  else if yearsElapsed year = 1 then quantise (BASE_RATE * FIRST_YEAR_INCREASE)
  else
    quantise (min
      (BASE_RATE * SUBSEQUENT_INCREASE *
        SUBSEQUENT_INCREASE ^ (yearsElapsed year - 2).toNat)
      MAX_RATE)

/-- Embedding of `pricing.maintenance_cost`: raises `ValueError` for a
negative page count, otherwise `BASE_APP_FEE + PER_PAGE_FEE * page_count`
quantised. -/
def maintenance_cost (page_count : ℤ) : Except String ℚ :=
  if page_count < 0 then Except.error "page_count cannot be negative"
  else Except.ok (quantise (BASE_APP_FEE + PER_PAGE_FEE * (page_count : ℚ)))

/-- Render a natural number as at least two decimal digits (the fractional
part of Python's `:.2f` format). -/
def twoDigitFrac (m : ℕ) : String :=
  if m < 10 then "0" ++ toString m else toString m

/-- Embedding of `pricing.format_currency` on an exact decimal value:
the Python `f"£{_quantise(v):.2f}"`.  After quantising, the value is an exact
number of hundredths, printed with a pound sign and two fractional digits. -/
def format_currency (v : ℚ) : String :=
  let cents : ℤ := ⌊quantise v * 100⌋
  if cents < 0 then
    "£-" ++ toString ((-cents) / 100) ++ "." ++ twoDigitFrac (((-cents) % 100).toNat)
  else
    "£" ++ toString (cents / 100) ++ "." ++ twoDigitFrac ((cents % 100).toNat)

/-- Python `str.strip()` modelled over the character list (whitespace
removed from both ends). -/
def pyStrip (s : String) : String :=
  String.mk
    (((s.toList.dropWhile Char.isWhitespace).reverse.dropWhile
      Char.isWhitespace).reverse)

/-! ## app.py: helper parsers -/

/-- Numeric value of a list of decimal digit characters. -/
def decDigitsVal (cs : List Char) : ℕ :=
  cs.foldl (fun acc c => acc * 10 + (c.toNat - 48)) 0

/-- All characters are decimal digits. -/
def allDigits (cs : List Char) : Bool := cs.all (fun c => c.isDigit)

/-- Embedding of Python `int(value)` on an already-listed string: optional
sign followed by at least one decimal digit (surrounding whitespace is
removed by `pyInt`); anything else raises `ValueError`, modelled as `none`. -/
def pyParseIntCore (cs : List Char) : Option ℤ :=
  match cs with
  | [] => none
  | c :: rest =>
    if c = '-' then
      if !rest.isEmpty && allDigits rest then some (-(decDigitsVal rest : ℤ)) else none
    else if c = '+' then
      if !rest.isEmpty && allDigits rest then some (decDigitsVal rest : ℤ) else none
    else if allDigits (c :: rest) then some (decDigitsVal (c :: rest) : ℤ)
    else none

/-- Python `int(value)` for a string (whitespace-tolerant decimal parse). -/
def pyInt (s : String) : Option ℤ := pyParseIntCore (pyStrip s).toList

/-- Embedding of `app._parse_positive_int`: `None` and unparsable strings
yield the default, as does a parsed value below zero. -/
def parse_positive_int (value : Option String) (default : ℤ) : ℤ :=
  match value with
  | none => default
  | some s =>
    match pyInt s with
    | none => default
    | some parsed => if 0 ≤ parsed then parsed else default

/-- Parse an unsigned decimal literal `digits[.digits]` (with at least one
digit) into an exact rational; the fragment of Python `Decimal(str)` syntax
that this application's form values exercise. -/
def parseUnsignedDecimal (cs : List Char) : Option ℚ :=
  let intPart := cs.takeWhile Char.isDigit
  let rest := cs.dropWhile Char.isDigit
  match rest with
  | [] => if intPart.isEmpty then none else some ((decDigitsVal intPart : ℚ))
  | '.' :: frac =>
    if allDigits frac && !(intPart.isEmpty && frac.isEmpty) then
      some ((decDigitsVal intPart : ℚ) + (decDigitsVal frac : ℚ) / (10 : ℚ) ^ frac.length)
    else none
  | _ => none

/-- Python `Decimal(value)` on a form string: optional sign and an unsigned
decimal literal, surrounding whitespace tolerated; failure modelled as
`none`. -/
def pyDecimal (s : String) : Option ℚ :=
  match (pyStrip s).toList with
  | '-' :: rest => (parseUnsignedDecimal rest).map (fun q => -q)
  | '+' :: rest => parseUnsignedDecimal rest
  | cs => parseUnsignedDecimal cs

/-- Embedding of `app._parse_positive_decimal`: `None` and the empty string
yield `None`, as do unparsable strings and parsed values below zero. -/
def parse_positive_decimal (value : Option String) : Option ℚ :=
  match value with
  | none => none
  | some s =>
    if s.isEmpty then none
    else
      match pyDecimal s with
      | none => none
      | some parsed => if 0 ≤ parsed then some parsed else none

/-- Embedding of `app._quantise_currency`, identical rounding to
`pricing._quantise`. -/
def quantise_currency (amount : ℚ) : ℚ := quantise amount

/-! ## app.py: contact-form submission gate -/

/-- Session key TTL `CONTACT_FORM_TOKEN_TTL = timedelta(hours=2)`, in
seconds. -/
def CONTACT_FORM_TOKEN_TTL : ℚ := 7200

/-- Constant `CONTACT_FORM_SUBMISSION_COOLDOWN = timedelta(seconds=45)`, in
seconds. -/
def CONTACT_FORM_SUBMISSION_COOLDOWN : ℚ := 45

/-- Constant `CONTACT_FORM_MIN_MESSAGE_LENGTH = 10`. -/
def CONTACT_FORM_MIN_MESSAGE_LENGTH : ℕ := 10

/-- The per-session state touched by the contact form: the anti-spam token,
its issuance timestamp and the last-submission marker (`None` models an
absent session key, and for the two timestamps also a non-numeric value,
which `app.py` treats identically). -/
structure ContactSession where
  token : Option String
  issuedAt : Option ℚ
  lastSubmission : Option ℚ
deriving DecidableEq

/-- Flash message of the honeypot rejection branch (app.py line 252). -/
def honeypotMsg : String :=
  "Your submission could not be processed. Please contact us directly."

/-- Flash message of the token-mismatch and expiry rejection branches. -/
def expiredMsg : String :=
  "Your session has expired. Please refresh the page and try again."

/-- Flash message of the cooldown rejection branch (app.py line 274). -/
def cooldownMsg : String := "Please wait a moment before submitting again."

/-- Python truthiness of `honeypot_value and honeypot_value.strip()`:
the field is present, non-empty, and non-empty after stripping. -/
def honeypotTriggered : Option String → Bool
  | none => false
  | some s => !s.isEmpty && !(pyStrip s).isEmpty

/-- The token comparison of app.py line 255: both the submitted and the
session token must be present and truthy (non-empty) and equal
(`secrets.compare_digest` is equality). -/
def tokenMatches : Option String → Option String → Bool
  | some t, some s => !t.isEmpty && !s.isEmpty && t == s
  | _, _ => false

/-- Embedding of `app._validate_contact_form_submission`: honeypot, token
match, token expiry and cooldown checks in order, returning the `(ok,
message)` pair of the Python function. -/
def validateContactForm (now : ℚ) (st : ContactSession)
    (token : Option String) (honeypotValue : Option String) :
    Bool × Option String :=
  if honeypotTriggered honeypotValue then (false, some honeypotMsg)
  else if !tokenMatches token st.token then (false, some expiredMsg)
  else
    match st.issuedAt with
    | none => (false, some expiredMsg)
    | some issuedAt =>
      if CONTACT_FORM_TOKEN_TTL < now - issuedAt then (false, some expiredMsg)
      else
        match st.lastSubmission with
        | some lastSubmission =>
          if now - lastSubmission < CONTACT_FORM_SUBMISSION_COOLDOWN then
            (false, some cooldownMsg)
          else (true, none)
        | none => (true, none)

/-- Embedding of `app._issue_contact_form_token`: store a freshly generated
token (a parameter here, `secrets.token_urlsafe(32)` in Python) and its
issuance timestamp in the session, overwriting any previous values. -/
def issueContactFormToken (token : String) (issuedAt : ℚ)
    (st : ContactSession) : ContactSession :=
  { st with token := some token, issuedAt := some issuedAt }

/-- The form fields of a contact-page POST (each `none` when absent). -/
structure ContactForm where
  form_token : Option String
  company : Option String
  name : Option String
  email : Option String
  phone : Option String
  message : Option String
  consent : Option String
deriving DecidableEq

/-- Python truthiness of an optional form value. -/
def pyTruthy : Option String → Bool
  | none => false
  | some s => !s.isEmpty

/-- The required-field check of app.py line 696: name, email, phone and
message non-empty after stripping, and a truthy consent value. -/
def contactFieldsComplete (form : ContactForm) : Bool :=
  !(pyStrip (form.name.getD "")).isEmpty && !(pyStrip (form.email.getD "")).isEmpty &&
    !(pyStrip (form.phone.getD "")).isEmpty &&
    !(pyStrip (form.message.getD "")).isEmpty && pyTruthy form.consent

/-- Outcome of a contact-page POST, mirroring the distinct exit paths of the
`contact` route. -/
inductive ContactOutcome where
  | gateRejected (msg : Option String)
  | captchaRejected
  | fieldsIncomplete
  | messageTooShort
  | mailerUnavailable
  | ownerRecipientMissing
  | dispatched (delivered : Bool)
deriving DecidableEq

/-- Embedding of the POST branch of the `contact` route (app.py 666-745).
External effects enter as parameters: `captchaOk` is the verdict of
`_verify_hcaptcha`, `mailerConfigured` the `mailer is None or not
mailer.is_configured` test, `ownerRecipientConfigured` the presence of
`MAIL_OWNER_RECIPIENT`, and `sendOk` the result of `_send_html_email_safe`.
Returns the outcome and the session state after the request. -/
def contactPost (now : ℚ) (st : ContactSession) (form : ContactForm)
    (captchaOk mailerConfigured ownerRecipientConfigured sendOk : Bool) :
    ContactOutcome × ContactSession :=
  let validation := validateContactForm now st form.form_token form.company
  if validation.1 = false then
    (ContactOutcome.gateRejected validation.2,
      { st with token := none, issuedAt := none })
  else if captchaOk = false then
    (ContactOutcome.captchaRejected, { st with token := none, issuedAt := none })
  else if contactFieldsComplete form = false then
    (ContactOutcome.fieldsIncomplete, st)
  else if (pyStrip (form.message.getD "")).length < CONTACT_FORM_MIN_MESSAGE_LENGTH then
    (ContactOutcome.messageTooShort, st)
  else if mailerConfigured = false then
    (ContactOutcome.mailerUnavailable, st)
  else if ownerRecipientConfigured = false then
    (ContactOutcome.ownerRecipientMissing, st)
  else
    (ContactOutcome.dispatched sendOk,
      { token := none, issuedAt := none, lastSubmission := some now })

/-! ## services/sendgrid_mailer.py -/

/-- The exceptions the mailer can raise past its boundary:
`SendGridConfigurationError` (RuntimeError subclass) and `ValueError`. -/
inductive MailError where
  | sendGridConfigurationError (msg : String)
  | valueError (msg : String)
deriving DecidableEq

/-- Embedding of `SendGridMailResult` (delivered flag, optional status code,
optional error detail); its `ok` property is the `delivered` field. -/
structure SendGridMailResult where
  delivered : Bool
  status_code : Option ℤ
  error : Option String
deriving DecidableEq

/-- The `ok` property of `SendGridMailResult`. -/
def SendGridMailResult.ok (r : SendGridMailResult) : Bool := r.delivered

/-- Embedding of the `SendGridMailer` construction state: the stored API key
and default sender (logger and timeout have no effect on results). -/
structure SendGridMailer where
  api_key : Option String
  default_sender : String
deriving DecidableEq

/-- Property `SendGridMailer.is_configured`: Python truthiness of the API key. -/
def SendGridMailer.is_configured (m : SendGridMailer) : Bool :=
  match m.api_key with
  | none => false
  | some s => !s.isEmpty

/-- The behaviour of the outbound `requests.post` to SendGrid, supplied as an
environment parameter: a 2xx response (`raise_for_status` passes), an HTTP
error response carrying a status code and the text of the raised exception,
or a connection-level failure with no response object. -/
inductive ProviderResponse where
  | success (status : ℤ)
  | httpError (status : ℤ) (excText : String)
  | connectionError (excText : String)
deriving DecidableEq

/-- Embedding of `SendGridMailer._dispatch`: raises
`SendGridConfigurationError` when no API key is configured; otherwise maps
the provider response to a `SendGridMailResult`, catching all
`requests.RequestException` failures. -/
def SendGridMailer.dispatch (m : SendGridMailer) (resp : ProviderResponse) :
    Except MailError SendGridMailResult :=
  if m.is_configured = false then
    Except.error
      (MailError.sendGridConfigurationError "SENDGRID_API_KEY is not configured")
  else
    match resp with
    | ProviderResponse.success status =>
      Except.ok { delivered := true, status_code := some status, error := none }
    | ProviderResponse.httpError status excText =>
      Except.ok { delivered := false, status_code := some status, error := some excText }
    | ProviderResponse.connectionError excText =>
      Except.ok { delivered := false, status_code := none, error := some excText }

/-- Embedding of `_format_recipients`: keep the stripped non-blank
addresses; raise `ValueError` when none remain. -/
def format_recipients (recipients : List String) :
    Except MailError (List String) :=
  let formatted :=
    (recipients.filter (fun a => !a.isEmpty && !(pyStrip a).isEmpty)).map
      (fun a => pyStrip a)
  if formatted.isEmpty then
    Except.error
      (MailError.valueError "At least one recipient email address is required")
  else Except.ok formatted

/-- Embedding of `SendGridMailer.send_html_email`: the payload construction
calls `_format_recipients` (which can raise `ValueError`) and the result is
that of `_dispatch`; subject, body, reply-to and attachments only shape the
payload, not the result. -/
def send_html_email (m : SendGridMailer) (recipients : List String)
    (resp : ProviderResponse) : Except MailError SendGridMailResult :=
  match format_recipients recipients with
  | Except.error e => Except.error e
  | Except.ok _ => m.dispatch resp

/-- Embedding of `SendGridMailer.send_dynamic_template_email`: builds the
template payload (no recipient validation) and returns `_dispatch`'s
result. -/
def send_dynamic_template_email (m : SendGridMailer)
    (recipient template_id : String) (resp : ProviderResponse) :
    Except MailError SendGridMailResult :=
  m.dispatch resp

/-- Embedding of `app._send_html_email_safe`: `False` when no mailer exists,
otherwise the `ok` of the send result, with `SendGridConfigurationError` and
`ValueError` caught and turned into `False`. -/
def send_html_email_safe (mailerOpt : Option SendGridMailer)
    (recipients : List String) (resp : ProviderResponse) : Bool :=
  match mailerOpt with
  | none => false
  | some m =>
    match send_html_email m recipients resp with
    | Except.ok r => r.ok
    | Except.error _ => false

/-! ## app.py: requirements endpoint -/

/-- The form fields of a POST to `/api/palmertech/requirements` that affect
the claims (each `none` when absent; the optional company, budget and
timeline fields only echo into the outgoing email). -/
structure RequirementsForm where
  name : Option String
  email : Option String
  project_type : Option String
  requirements : Option String
  estimated_hours : Option String
  page_count : Option String
deriving DecidableEq

/-- The stripping applied to every posted value at app.py line 540. -/
def stripped (v : Option String) : Option String := v.map (fun s => pyStrip s)

/-- A required field is missing when absent or falsy after stripping
(app.py line 542). -/
def reqFieldMissing : Option String → Bool
  | none => true
  | some s => (pyStrip s).isEmpty

/-- Outcome of the requirements endpoint, mirroring its exit paths: the 400
responses, the 503 configuration responses, the 202 warning, the success
JSON (carrying the formatted rate and estimates and the parsed page count),
and an uncaught exception (`internalError`, which C9 shows unreachable). -/
inductive RequirementsOutcome where
  | badRequest (msg : String)
  | internalError (msg : String)
  | unavailable (msg : String)
  | warning (msg : String)
  | success (development_rate development_estimate maintenance_estimate : String)
      (page_count : ℤ)
deriving DecidableEq

/-- Embedding of `app.submit_requirements`.  `rate` is `current_rate()` at
the request date; `emailSettingsConfigured` is the presence of both the
requirements template id and recipient; `mailerConfigured` the
`mailer is None or not mailer.is_configured` test; `adminSent`/`clientSent`
the two `_send_dynamic_email_safe` results. -/
def submit_requirements (rate : ℚ) (form : RequirementsForm)
    (emailSettingsConfigured mailerConfigured adminSent clientSent : Bool) :
    RequirementsOutcome :=
  if reqFieldMissing form.name || reqFieldMissing form.email ||
      reqFieldMissing form.project_type || reqFieldMissing form.requirements ||
      reqFieldMissing form.estimated_hours || reqFieldMissing form.page_count then
    RequirementsOutcome.badRequest
      "Please complete all required fields before submitting the form."
  else
    match parse_positive_decimal (stripped form.estimated_hours) with
    | none =>
      RequirementsOutcome.badRequest
        "Estimated hours must be a non-negative number."
    | some estimated_hours =>
      match maintenance_cost (parse_positive_int (stripped form.page_count) 0) with
      | Except.error e => RequirementsOutcome.internalError e
      | Except.ok maintenance_total =>
        if emailSettingsConfigured = false then
          RequirementsOutcome.unavailable
            "Email delivery is temporarily unavailable. Please try again shortly."
        else if mailerConfigured = false then
          RequirementsOutcome.unavailable
            "Email delivery is temporarily unavailable. Please try again shortly."
        else if adminSent && clientSent then
          RequirementsOutcome.success (format_currency rate)
            (format_currency (quantise_currency (rate * estimated_hours)))
            (format_currency maintenance_total)
            (parse_positive_int (stripped form.page_count) 0)
        else
          RequirementsOutcome.warning
            "Your request was received but email notifications could not be sent. We will contact you shortly."

/-! ## Theorems: quantisation -/

/-- Half-up rounding to hundredths is monotone. -/
theorem quantise_mono {a b : ℚ} (hab : a ≤ b) : quantise a ≤ quantise b := by
  unfold quantise
  by_cases ha : 0 ≤ a
  · rw [if_pos ha, if_pos (le_trans ha hab)]
    have h := Int.floor_mono (α := ℚ) (show a * 100 + 1 / 2 ≤ b * 100 + 1 / 2 by linarith)
    have h2 : ((⌊a * 100 + 1 / 2⌋ : ℤ) : ℚ) ≤ ((⌊b * 100 + 1 / 2⌋ : ℤ) : ℚ) := by
      exact_mod_cast h
    linarith
  · rw [if_neg ha]
    have ha' : a < 0 := lt_of_not_ge ha
    by_cases hb : 0 ≤ b
    · rw [if_pos hb]
      have hL : (0 : ℤ) ≤ ⌊-a * 100 + 1 / 2⌋ :=
        Int.le_floor.mpr (by push_cast; nlinarith)
      have hR : (0 : ℤ) ≤ ⌊b * 100 + 1 / 2⌋ :=
        Int.le_floor.mpr (by push_cast; nlinarith)
      have hL' : (0 : ℚ) ≤ ((⌊-a * 100 + 1 / 2⌋ : ℤ) : ℚ) := by exact_mod_cast hL
      have hR' : (0 : ℚ) ≤ ((⌊b * 100 + 1 / 2⌋ : ℤ) : ℚ) := by exact_mod_cast hR
      linarith
    · rw [if_neg hb]
      have h := Int.floor_mono (α := ℚ)
        (show -b * 100 + 1 / 2 ≤ -a * 100 + 1 / 2 by linarith)
      have h2 : ((⌊-b * 100 + 1 / 2⌋ : ℤ) : ℚ) ≤ ((⌊-a * 100 + 1 / 2⌋ : ℤ) : ℚ) := by
        exact_mod_cast h
      linarith

/-- Quantising an exact number of hundredths is the identity. -/
theorem quantise_cents (k : ℤ) (hk : 0 ≤ k) :
    quantise ((k : ℚ) / 100) = (k : ℚ) / 100 := by
  have hv : (0 : ℚ) ≤ (k : ℚ) / 100 :=
    div_nonneg (by exact_mod_cast hk) (by norm_num)
  rw [quantise, if_pos hv]
  have harg : (k : ℚ) / 100 * 100 + 1 / 2 = (k : ℚ) + 1 / 2 := by ring
  rw [harg]
  have hf : ⌊(k : ℚ) + 1 / 2⌋ = k := by
    rw [Int.floor_eq_iff]
    constructor
    · push_cast; linarith
    · push_cast; linarith
  rw [hf]

/-- A nonnegative value that is an exact number of hundredths is a fixed
point of `quantise`. -/
theorem quantise_fix (v : ℚ) (k : ℤ) (hk : 0 ≤ k) (h : (k : ℚ) = v * 100) :
    quantise v = v := by
  have hv : v = (k : ℚ) / 100 := by
    rw [h]; field_simp
  rw [hv, quantise_cents k hk]

/-- Quantising never pushes a value above the rate cap. -/
theorem quantise_cap {v : ℚ} (h : v ≤ MAX_RATE) : quantise v ≤ MAX_RATE := by
  have h40 : quantise MAX_RATE = MAX_RATE :=
    quantise_fix MAX_RATE 4000 (by norm_num) (by norm_num [MAX_RATE])
  calc quantise v ≤ quantise MAX_RATE := quantise_mono h
    _ = MAX_RATE := h40

/-! ## Theorems: the rate escalation loop -/

/-- The escalation loop computes the quantised minimum of the compounded
rate and the cap. -/
theorem rateLoop_eq (k : ℕ) (rate : ℚ) (h : 0 < rate) :
    rateLoop rate k = quantise (min (rate * SUBSEQUENT_INCREASE ^ k) MAX_RATE) := by
  induction k generalizing rate with
  | zero =>
    simp only [rateLoop, pow_zero, mul_one, min_def]
  | succ k ih =>
    have hS : (1 : ℚ) ≤ SUBSEQUENT_INCREASE := by norm_num [SUBSEQUENT_INCREASE]
    have hS0 : (0 : ℚ) < SUBSEQUENT_INCREASE := by norm_num [SUBSEQUENT_INCREASE]
    simp only [rateLoop]
    by_cases hc : MAX_RATE ≤ rate * SUBSEQUENT_INCREASE
    · rw [if_pos hc]
      have hge : MAX_RATE ≤ rate * SUBSEQUENT_INCREASE ^ (k + 1) := by
        calc MAX_RATE ≤ rate * SUBSEQUENT_INCREASE := hc
          _ ≤ rate * SUBSEQUENT_INCREASE * SUBSEQUENT_INCREASE ^ k := by
              apply le_mul_of_one_le_right
              · positivity
              · exact one_le_pow₀ hS
          _ = rate * SUBSEQUENT_INCREASE ^ (k + 1) := by ring
      rw [min_eq_right hge]
    · rw [if_neg hc]
      have h2 : 0 < rate * SUBSEQUENT_INCREASE := by positivity
      rw [ih _ h2]
      congr 1
      congr 1
      ring

/-! ## Theorems: the yearly rate schedule -/

/-- The pre-quantisation rate schedule as a function of elapsed years. -/
def rateSchedule : ℕ → ℚ
  | 0 => BASE_RATE
  | 1 => BASE_RATE * FIRST_YEAR_INCREASE
  | n + 2 =>
    min (BASE_RATE * SUBSEQUENT_INCREASE * SUBSEQUENT_INCREASE ^ n) MAX_RATE

/-- Function `current_rate` is the quantised schedule at the elapsed-year count. -/
theorem current_rate_eq_schedule (y : ℤ) :
    current_rate y = quantise (rateSchedule (yearsElapsed y).toNat) := by
  have hy : 0 ≤ yearsElapsed y := le_max_left 0 _
  by_cases h0 : yearsElapsed y = 0
  · rw [current_rate, if_pos h0, h0]
    rfl
  · by_cases h1 : yearsElapsed y = 1
    · rw [current_rate, if_neg h0, if_pos h1, h1]
      rfl
    · have h2 : 2 ≤ yearsElapsed y := by omega
      have hk : (yearsElapsed y).toNat = (yearsElapsed y - 2).toNat + 2 := by omega
      rw [current_rate, if_neg h0, if_neg h1,
        rateLoop_eq _ _ (by norm_num [BASE_RATE, SUBSEQUENT_INCREASE]), hk]
      rfl

/-- The spec-side formula is also the quantised schedule. -/
theorem current_rate_spec_eq_schedule (y : ℤ) :
    current_rate_spec y = quantise (rateSchedule (yearsElapsed y).toNat) := by
  have hy : 0 ≤ yearsElapsed y := le_max_left 0 _
  by_cases h0 : yearsElapsed y = 0
  · rw [current_rate_spec, if_pos h0, h0]
    rfl
  · by_cases h1 : yearsElapsed y = 1
    · rw [current_rate_spec, if_neg h0, if_pos h1, h1]
      rfl
    · have h2 : 2 ≤ yearsElapsed y := by omega
      have hk : (yearsElapsed y).toNat = (yearsElapsed y - 2).toNat + 2 := by omega
      rw [current_rate_spec, if_neg h0, if_neg h1, hk]
      rfl

/-- The schedule never exceeds the cap. -/
theorem rateSchedule_le_cap (n : ℕ) : rateSchedule n ≤ MAX_RATE := by
  match n with
  | 0 => norm_num [rateSchedule, BASE_RATE, MAX_RATE]
  | 1 => norm_num [rateSchedule, BASE_RATE, FIRST_YEAR_INCREASE, MAX_RATE]
  | n + 2 => exact min_le_right _ _

/-- The schedule is monotone in elapsed years. -/
theorem rateSchedule_mono : Monotone rateSchedule := by
  apply monotone_nat_of_le_succ
  intro n
  match n with
  | 0 => norm_num [rateSchedule, BASE_RATE, FIRST_YEAR_INCREASE]
  | 1 =>
    rw [show rateSchedule 1 = BASE_RATE * FIRST_YEAR_INCREASE from rfl,
      show rateSchedule 2 =
        min (BASE_RATE * SUBSEQUENT_INCREASE * SUBSEQUENT_INCREASE ^ 0) MAX_RATE from rfl]
    rw [le_min_iff]
    constructor
    · norm_num [BASE_RATE, FIRST_YEAR_INCREASE, SUBSEQUENT_INCREASE]
    · norm_num [BASE_RATE, FIRST_YEAR_INCREASE, MAX_RATE]
  | n + 2 =>
    apply min_le_min _ le_rfl
    have hS : (1 : ℚ) ≤ SUBSEQUENT_INCREASE := by norm_num [SUBSEQUENT_INCREASE]
    have h0 : (0 : ℚ) ≤ BASE_RATE * SUBSEQUENT_INCREASE * SUBSEQUENT_INCREASE ^ n := by
      unfold BASE_RATE SUBSEQUENT_INCREASE
      positivity
    calc BASE_RATE * SUBSEQUENT_INCREASE * SUBSEQUENT_INCREASE ^ n
        ≤ BASE_RATE * SUBSEQUENT_INCREASE * SUBSEQUENT_INCREASE ^ n * SUBSEQUENT_INCREASE :=
          le_mul_of_one_le_right h0 hS
      _ = BASE_RATE * SUBSEQUENT_INCREASE * SUBSEQUENT_INCREASE ^ (n + 1) := by ring

/-- C1: for every reference date, `current_rate` returns the base rate
(25.00) at zero elapsed years, base × 1.05 at one, and for two or more
elapsed years the base × 1.10 compounded by a further × 1.10 per elapsed
year beyond the second, clamped to the smaller of the computed value and the
40.00 cap, all rounded to 2 decimal places half-up in exact decimal
arithmetic (stated as equality with the spec-side formula
`current_rate_spec`, plus the concrete anchor values). -/
theorem current_rate_spec_conformance :
    (∀ year : ℤ, current_rate year = current_rate_spec year) ∧
    current_rate 2025 = 25 ∧ current_rate 2026 = 2625 / 100 := by
  refine ⟨fun year => ?_, ?_, ?_⟩
  · rw [current_rate_eq_schedule, current_rate_spec_eq_schedule]
  · rw [current_rate_eq_schedule]
    have h : yearsElapsed 2025 = 0 := by norm_num [yearsElapsed, START_YEAR]
    rw [h]
    show quantise BASE_RATE = 25
    rw [show BASE_RATE = (25 : ℚ) from rfl]
    exact quantise_fix 25 2500 (by norm_num) (by norm_num)
  · rw [current_rate_eq_schedule]
    have h : yearsElapsed 2026 = 1 := by norm_num [yearsElapsed, START_YEAR]
    rw [h]
    show quantise (BASE_RATE * FIRST_YEAR_INCREASE) = 2625 / 100
    have hval : BASE_RATE * FIRST_YEAR_INCREASE = 2625 / 100 := by
      norm_num [BASE_RATE, FIRST_YEAR_INCREASE]
    rw [hval]
    exact quantise_fix (2625 / 100) 2625 (by norm_num) (by norm_num)

/-- C2: `current_rate` is monotonically non-decreasing in the reference
year (equivalently in elapsed years) and never exceeds the 40.00 cap. -/
theorem current_rate_monotone_capped :
    (∀ y1 y2 : ℤ, y1 ≤ y2 → current_rate y1 ≤ current_rate y2) ∧
    ∀ y : ℤ, current_rate y ≤ MAX_RATE := by
  constructor
  · intro y1 y2 h
    rw [current_rate_eq_schedule, current_rate_eq_schedule]
    apply quantise_mono
    apply rateSchedule_mono
    have : yearsElapsed y1 ≤ yearsElapsed y2 := by
      unfold yearsElapsed; omega
    omega
  · intro y
    rw [current_rate_eq_schedule]
    exact quantise_cap (rateSchedule_le_cap _)

/-- Witness for C2 at concrete years: 2026 ≤ 2031, so the 2026 rate is at
most the 2031 rate, and the 2031 rate is at most the cap. -/
theorem current_rate_monotone_capped_witness :
    current_rate 2026 ≤ current_rate 2031 ∧ current_rate 2031 ≤ MAX_RATE :=
  ⟨current_rate_monotone_capped.1 2026 2031 (by norm_num),
    current_rate_monotone_capped.2 2031⟩

/-- C3: `maintenance_cost` fails with the `ValueError` (InvalidArgument)
condition exactly when the page count is negative; otherwise it returns
`BASE_APP_FEE + PER_PAGE_FEE × page_count` rounded half-up, with
`maintenance_cost 0 = 25.00` and `maintenance_cost 5 = 75.00`. -/
theorem maintenance_cost_spec :
    (∀ p : ℤ, maintenance_cost p = Except.error "page_count cannot be negative" ↔ p < 0) ∧
    (∀ p : ℤ, 0 ≤ p →
      maintenance_cost p =
        Except.ok (quantise (BASE_APP_FEE + PER_PAGE_FEE * (p : ℚ)))) ∧
    maintenance_cost 0 = Except.ok 25 ∧ maintenance_cost 5 = Except.ok 75 := by
  have hok : ∀ p : ℤ, 0 ≤ p →
      maintenance_cost p =
        Except.ok (quantise (BASE_APP_FEE + PER_PAGE_FEE * (p : ℚ))) := by
    intro p hp
    rw [maintenance_cost, if_neg (not_lt.mpr hp)]
  refine ⟨fun p => ?_, hok, ?_, ?_⟩
  · constructor
    · intro h
      by_contra hge
      rw [hok p (by omega)] at h
      exact Except.noConfusion h
    · intro h
      rw [maintenance_cost, if_pos h]
  · rw [hok 0 le_rfl]
    have hval : BASE_APP_FEE + PER_PAGE_FEE * ((0 : ℤ) : ℚ) = 25 := by
      norm_num [BASE_APP_FEE, PER_PAGE_FEE]
    rw [hval, quantise_fix 25 2500 (by norm_num) (by norm_num)]
  · rw [hok 5 (by norm_num)]
    have hval : BASE_APP_FEE + PER_PAGE_FEE * ((5 : ℤ) : ℚ) = 75 := by
      norm_num [BASE_APP_FEE, PER_PAGE_FEE]
    rw [hval, quantise_fix 75 7500 (by norm_num) (by norm_num)]

/-- Witness for C3 at concrete page counts: 5 is nonnegative and priced at
25.00 + 10.00 × 5 quantised, and -1 fails with the InvalidArgument
condition. -/
theorem maintenance_cost_spec_witness :
    maintenance_cost 5 =
      Except.ok (quantise (BASE_APP_FEE + PER_PAGE_FEE * ((5 : ℤ) : ℚ))) ∧
    maintenance_cost (-1) = Except.error "page_count cannot be negative" :=
  ⟨maintenance_cost_spec.2.1 5 (by norm_num),
    (maintenance_cost_spec.1 (-1)).mpr (by norm_num)⟩

/-! ## Theorems: contact-form submission gate -/

/-- C4 counterexample: a whitespace-only honeypot value is a non-empty
honeypot field, yet with a valid matching unexpired token the gate accepts
the submission and the POST proceeds all the way to a successful dispatch,
so a non-empty honeypot is not always rejected. -/
theorem honeypot_whitespace_counterexample :
    (" " : String).isEmpty = false ∧
    validateContactForm 100 ⟨some "tok", some 100, none⟩ (some "tok") (some " ") =
      (true, none) ∧
    (contactPost 100 ⟨some "tok", some 100, none⟩
      ⟨some "tok", some " ", some "Alice Smith", some "alice@example.com",
        some "0123456789", some "hello there please", some "yes"⟩
      true true true true).1 = ContactOutcome.dispatched true := by
  have hv : validateContactForm 100 ⟨some "tok", some 100, none⟩ (some "tok")
      (some " ") = (true, none) := by
    simp +decide [validateContactForm, honeypotTriggered, tokenMatches,
      CONTACT_FORM_TOKEN_TTL]
  refine ⟨by decide, hv, ?_⟩
  simp only [contactPost, hv]
  simp +decide [contactFieldsComplete, pyTruthy, CONTACT_FORM_MIN_MESSAGE_LENGTH]

/-- C4 amended: whenever the honeypot field holds a value that is non-empty
after stripping (Python truthiness of `honeypot_value and
honeypot_value.strip()`), the gate rejects the submission with the honeypot
message, regardless of the session state, the token and all other fields. -/
theorem honeypot_nonblank_always_rejected (now : ℚ) (st : ContactSession)
    (form : ContactForm) (c m o s : Bool)
    (h : honeypotTriggered form.company = true) :
    validateContactForm now st form.form_token form.company =
      (false, some honeypotMsg) ∧
    (contactPost now st form c m o s).1 =
      ContactOutcome.gateRejected (some honeypotMsg) := by
  have hv : validateContactForm now st form.form_token form.company =
      (false, some honeypotMsg) := by
    rw [validateContactForm, if_pos h]
  refine ⟨hv, ?_⟩
  simp [contactPost, hv]

/-- Witness for C4 amended at a concrete input: honeypot value "bot" is
non-blank and the gate rejects with the honeypot message. -/
theorem honeypot_nonblank_always_rejected_witness :
    validateContactForm 0 ⟨some "tok", some 0, none⟩ (some "tok") (some "bot") =
      (false, some honeypotMsg) :=
  (honeypot_nonblank_always_rejected 0 ⟨some "tok", some 0, none⟩
    ⟨some "tok", some "bot", none, none, none, none, none⟩
    true true true true (by decide)).1

/-- C5 counterexample: a POST rejected by the cooldown check (token matches,
unexpired, last submission 40 seconds ago) does not leave the session token
and issuance timestamp unchanged — the `contact` route pops both keys on
every gate rejection, so the stored token `"tok"` becomes absent. -/
theorem cooldown_session_counterexample :
    validateContactForm 100 ⟨some "tok", some 0, some 60⟩ (some "tok") none =
      (false, some cooldownMsg) ∧
    (contactPost 100 ⟨some "tok", some 0, some 60⟩
      ⟨some "tok", none, some "Alice", some "a@b.c", some "0123",
        some "hello there please", some "yes"⟩
      true true true true).2 = ⟨none, none, some 60⟩ ∧
    (⟨some "tok", some 0, some 60⟩ : ContactSession).token ≠
      (⟨none, none, some 60⟩ : ContactSession).token := by
  have hv : validateContactForm 100 ⟨some "tok", some 0, some 60⟩ (some "tok")
      none = (false, some cooldownMsg) := by
    simp +decide [validateContactForm, honeypotTriggered, tokenMatches,
      CONTACT_FORM_TOKEN_TTL, CONTACT_FORM_SUBMISSION_COOLDOWN]
    norm_num
  refine ⟨hv, ?_, by decide⟩
  simp [contactPost, hv]

/-- C5 amended: a cooldown-rejected POST clears the session token and its
issuance timestamp (they are removed, exactly as for every other gate
rejection), while the last-submission marker is left unchanged. -/
theorem cooldown_rejection_clears_token (now : ℚ) (st : ContactSession)
    (form : ContactForm) (c m o s : Bool)
    (h : validateContactForm now st form.form_token form.company =
      (false, some cooldownMsg)) :
    contactPost now st form c m o s =
      (ContactOutcome.gateRejected (some cooldownMsg),
        { token := none, issuedAt := none, lastSubmission := st.lastSubmission }) := by
  simp [contactPost, h]

/-- Witness for C5 amended at the concrete cooldown rejection (40 seconds
elapsed of the 45-second cooldown). -/
theorem cooldown_rejection_clears_token_witness :
    contactPost 100 ⟨some "tok", some 0, some 60⟩
      ⟨some "tok", none, some "Alice", some "a@b.c", some "0123",
        some "hello there please", some "yes"⟩ true true true true =
      (ContactOutcome.gateRejected (some cooldownMsg),
        { token := none, issuedAt := none, lastSubmission := some 60 }) :=
  cooldown_rejection_clears_token 100 ⟨some "tok", some 0, some 60⟩
    ⟨some "tok", none, some "Alice", some "a@b.c", some "0123",
      some "hello there please", some "yes"⟩ true true true true
    (by
      simp +decide [validateContactForm, honeypotTriggered, tokenMatches,
        CONTACT_FORM_TOKEN_TTL, CONTACT_FORM_SUBMISSION_COOLDOWN]
      norm_num)

/-- C6 counterexample: a POST that passes every check but whose mail
dispatch fails still overwrites the last-submission marker with the
submission time (and clears the token), so the marker is not written only on
successful dispatch. -/
theorem failed_dispatch_marker_counterexample :
    (contactPost 100 ⟨some "tok", some 0, none⟩
      ⟨some "tok", none, some "Alice", some "a@b.c", some "0123",
        some "hello there please", some "yes"⟩
      true true true false) =
      (ContactOutcome.dispatched false, ⟨none, none, some 100⟩) ∧
    (⟨some "tok", some 0, none⟩ : ContactSession).lastSubmission ≠ some 100 := by
  have hv : validateContactForm 100 ⟨some "tok", some 0, none⟩ (some "tok")
      none = (true, none) := by
    simp +decide [validateContactForm, honeypotTriggered, tokenMatches,
      CONTACT_FORM_TOKEN_TTL]
  refine ⟨?_, by decide⟩
  simp only [contactPost, hv]
  simp +decide [contactFieldsComplete, pyTruthy, CONTACT_FORM_MIN_MESSAGE_LENGTH]

/-- C6 amended: after every POST that reaches mail dispatch (gate, CAPTCHA,
field and configuration checks all pass), the session's last-submission
marker is overwritten with the submission time and the token and issuance
timestamp are cleared, whether or not the dispatch succeeded. -/
theorem dispatch_reached_updates_session (now : ℚ) (st : ContactSession)
    (form : ContactForm) (sendOk : Bool)
    (hv : (validateContactForm now st form.form_token form.company).1 = true)
    (hf : contactFieldsComplete form = true)
    (hlen : CONTACT_FORM_MIN_MESSAGE_LENGTH ≤ (pyStrip (form.message.getD "")).length) :
    contactPost now st form true true true sendOk =
      (ContactOutcome.dispatched sendOk,
        { token := none, issuedAt := none, lastSubmission := some now }) := by
  simp [contactPost, hv, hf, Nat.not_lt.mpr hlen]

/-- Witness for C6 amended: the concrete all-checks-pass POST with a failing
send overwrites the marker with time 200 and clears the token. -/
theorem dispatch_reached_updates_session_witness :
    contactPost 200 ⟨some "tok2", some 100, none⟩
      ⟨some "tok2", none, some "Bob", some "b@c.d", some "0123",
        some "bigger than ten chars", some "on"⟩ true true true false =
      (ContactOutcome.dispatched false,
        { token := none, issuedAt := none, lastSubmission := some 200 }) :=
  dispatch_reached_updates_session 200 ⟨some "tok2", some 100, none⟩
    ⟨some "tok2", none, some "Bob", some "b@c.d", some "0123",
      some "bigger than ten chars", some "on"⟩ false
    (by
      simp +decide [validateContactForm, honeypotTriggered, tokenMatches,
        CONTACT_FORM_TOKEN_TTL]
      norm_num)
    (by decide) (by decide)

/-- C10: rendering the contact page stores the newly generated token and its
issuance timestamp in the session, overwriting the previous values, so the
session holds at most the latest token; provided the fresh token differs
from an earlier one (tokens are 256-bit random strings), any POST presenting
the earlier token fails the gate's token comparison and is rejected. -/
theorem token_reissue_invalidates_old (now ts : ℚ) (st : ContactSession)
    (t1 t2 : String) (form : ContactForm) (c m o s : Bool)
    (hne : t1 ≠ t2) (hform : form.form_token = some t1) :
    (issueContactFormToken t2 ts st).token = some t2 ∧
    (issueContactFormToken t2 ts st).issuedAt = some ts ∧
    (validateContactForm now (issueContactFormToken t2 ts st) (some t1)
      form.company).1 = false ∧
    ∃ msg, (contactPost now (issueContactFormToken t2 ts st) form c m o s).1 =
      ContactOutcome.gateRejected msg := by
  have htm : tokenMatches (some t1) (issueContactFormToken t2 ts st).token = false := by
    simp [issueContactFormToken, tokenMatches, hne]
  have hval : (validateContactForm now (issueContactFormToken t2 ts st) (some t1)
      form.company).1 = false := by
    by_cases hhp : honeypotTriggered form.company = true
    · rw [validateContactForm, if_pos hhp]
    · rw [validateContactForm, if_neg hhp, if_pos (by rw [htm]; rfl)]
  refine ⟨rfl, rfl, hval, ?_⟩
  refine ⟨(validateContactForm now (issueContactFormToken t2 ts st)
    form.form_token form.company).2, ?_⟩
  have hval' : (validateContactForm now (issueContactFormToken t2 ts st)
      form.form_token form.company).1 = false := by rw [hform]; exact hval
  simp only [contactPost]
  rw [if_pos hval']

/-- Witness for C10 with the concrete distinct tokens "old" and "new". -/
theorem token_reissue_invalidates_old_witness :
    (issueContactFormToken "new" 50 ⟨some "old", some 0, none⟩).token = some "new" ∧
    (issueContactFormToken "new" 50 ⟨some "old", some 0, none⟩).issuedAt = some 50 ∧
    (validateContactForm 60 (issueContactFormToken "new" 50 ⟨some "old", some 0, none⟩)
      (some "old") none).1 = false ∧
    ∃ msg, (contactPost 60 (issueContactFormToken "new" 50 ⟨some "old", some 0, none⟩)
      ⟨some "old", none, some "A", some "a@b", some "1", some "hello there please",
        some "y"⟩ true true true true).1 = ContactOutcome.gateRejected msg :=
  token_reissue_invalidates_old 60 50 ⟨some "old", some 0, none⟩ "old" "new"
    ⟨some "old", none, some "A", some "a@b", some "1", some "hello there please",
      some "y"⟩ true true true true (by decide) rfl

/-! ## Theorems: SendGrid mailer -/

/-- C7 counterexample: with no API key configured, both send operations
raise `SendGridConfigurationError` past the mailer boundary (even though the
provider would have accepted the request), instead of returning a
not-delivered result. -/
theorem mailer_missing_key_raises_counterexample :
    send_html_email ⟨none, "noreply@palmertech.co.uk"⟩ ["owner@palmertech.co.uk"]
      (ProviderResponse.success 202) =
      Except.error
        (MailError.sendGridConfigurationError "SENDGRID_API_KEY is not configured") ∧
    send_dynamic_template_email ⟨none, "noreply@palmertech.co.uk"⟩
      "client@example.com" "d-template" (ProviderResponse.success 202) =
      Except.error
        (MailError.sendGridConfigurationError "SENDGRID_API_KEY is not configured") := by
  exact ⟨rfl, rfl⟩

/-- C7 amended: with an API key configured, both send operations fail
closed on provider failures — a non-2xx response or a connection error each
produce a not-delivered result carrying the status code (when a response
exists) and the error text, with no exception; without an API key both raise
`SendGridConfigurationError` (which the application-level safe wrappers
catch, `send_html_email_safe` reporting `false`); `send_html_email`
additionally raises `ValueError` when no non-blank recipient is supplied. -/
theorem mailer_fail_closed_amended (m : SendGridMailer) (rs : List String)
    (r tid : String) (status : ℤ) (etext : String) (resp : ProviderResponse)
    (l : List String) (hr : format_recipients rs = Except.ok l) :
    (m.is_configured = true →
      send_html_email m rs (ProviderResponse.httpError status etext) =
        Except.ok ⟨false, some status, some etext⟩ ∧
      send_html_email m rs (ProviderResponse.connectionError etext) =
        Except.ok ⟨false, none, some etext⟩ ∧
      send_dynamic_template_email m r tid (ProviderResponse.httpError status etext) =
        Except.ok ⟨false, some status, some etext⟩ ∧
      send_dynamic_template_email m r tid (ProviderResponse.connectionError etext) =
        Except.ok ⟨false, none, some etext⟩) ∧
    (m.is_configured = false →
      send_html_email m rs resp =
        Except.error
          (MailError.sendGridConfigurationError "SENDGRID_API_KEY is not configured") ∧
      send_dynamic_template_email m r tid resp =
        Except.error
          (MailError.sendGridConfigurationError "SENDGRID_API_KEY is not configured") ∧
      send_html_email_safe (some m) rs resp = false) ∧
    format_recipients [] =
      Except.error
        (MailError.valueError "At least one recipient email address is required") := by
  refine ⟨fun hm => ?_, fun hm => ?_, rfl⟩
  · rw [send_html_email, hr, send_html_email, hr]
    rw [send_dynamic_template_email, send_dynamic_template_email]
    unfold SendGridMailer.dispatch
    rw [hm]
    simp
  · rw [send_html_email, hr]
    rw [send_dynamic_template_email]
    rw [send_html_email_safe, send_html_email, hr]
    unfold SendGridMailer.dispatch
    rw [hm]
    simp

/-- Witness for C7 amended: a configured mailer facing a 401 response
returns a not-delivered result with the status and error text. -/
theorem mailer_fail_closed_amended_witness :
    send_html_email ⟨some "SG.key", "noreply@palmertech.co.uk"⟩ ["a@b.c"]
      (ProviderResponse.httpError 401 "Unauthorized") =
      Except.ok ⟨false, some 401, some "Unauthorized"⟩ :=
  ((mailer_fail_closed_amended ⟨some "SG.key", "noreply@palmertech.co.uk"⟩
    ["a@b.c"] "r@s.t" "d-tid" 401 "Unauthorized" (ProviderResponse.success 202)
    ["a@b.c"] rfl).1 rfl).1

/-! ## Theorems: requirements endpoint -/

/-- Formatting an exact number of hundredths prints its pound-and-pence
digits. -/
theorem format_currency_cents (k : ℤ) (hk : 0 ≤ k) :
    format_currency ((k : ℚ) / 100) =
      "£" ++ toString (k / 100) ++ "." ++ twoDigitFrac ((k % 100).toNat) := by
  have hq : quantise ((k : ℚ) / 100) = (k : ℚ) / 100 := quantise_cents k hk
  have harg : (k : ℚ) / 100 * 100 = (k : ℚ) := by field_simp
  have hfloor : ⌊((k : ℚ) / 100) * 100⌋ = k := by
    rw [harg, Int.floor_intCast]
  simp only [format_currency, hq, hfloor]
  rw [if_neg (not_lt.mpr hk)]

/-- Formatting any nonnegative value equal to `k` hundredths. -/
theorem format_currency_eval (v : ℚ) (k : ℤ) (hk : 0 ≤ k)
    (hv : (k : ℚ) = v * 100) :
    format_currency v =
      "£" ++ toString (k / 100) ++ "." ++ twoDigitFrac ((k % 100).toNat) := by
  have hv' : v = (k : ℚ) / 100 := by rw [hv]; field_simp
  rw [hv', format_currency_cents k hk]

/-- Helper `_parse_positive_int` never returns a value below a nonnegative
default. -/
theorem parse_positive_int_nonneg (v : Option String) (d : ℤ) (hd : 0 ≤ d) :
    0 ≤ parse_positive_int v d := by
  cases v with
  | none => simpa [parse_positive_int] using hd
  | some s =>
    simp only [parse_positive_int]
    cases hpi : pyInt s with
    | none => simpa using hd
    | some p =>
      by_cases hp : 0 ≤ p
      · simpa [hp] using hp
      · simpa [hp] using hd

/-- Evaluation of `maintenance_cost` on a nonnegative page count. -/
theorem maintenance_cost_eval (p : ℤ) (hp : 0 ≤ p) :
    maintenance_cost p =
      Except.ok (quantise (BASE_APP_FEE + PER_PAGE_FEE * (p : ℚ))) := by
  rw [maintenance_cost, if_neg (not_lt.mpr hp)]

/-- C8: a requirements submission with `page_count=10` and
`estimated_hours=4` processed at an hourly rate of 25.00 (with the mail
configuration present and both notification emails delivered) yields
`development_estimate = "£100.00"` and `maintenance_estimate = "£125.00"`
(and `development_rate = "£25.00"`, the parsed page count 10). -/
theorem requirements_estimate_example (n e pt rq : String)
    (hn : (pyStrip n).isEmpty = false) (he : (pyStrip e).isEmpty = false)
    (hp : (pyStrip pt).isEmpty = false) (hr : (pyStrip rq).isEmpty = false) :
    submit_requirements 25 ⟨some n, some e, some pt, some rq, some "4", some "10"⟩
      true true true true =
      RequirementsOutcome.success "£25.00" "£100.00" "£125.00" 10 := by
  have h4 : parse_positive_decimal (stripped (some "4")) = some 4 := rfl
  have h10 : parse_positive_int (stripped (some "10")) 0 = 10 := rfl
  have hm : maintenance_cost 10 = Except.ok 125 := by
    rw [maintenance_cost_eval 10 (by norm_num)]
    have hval : BASE_APP_FEE + PER_PAGE_FEE * ((10 : ℤ) : ℚ) = 125 := by
      norm_num [BASE_APP_FEE, PER_PAGE_FEE]
    rw [hval, quantise_fix 125 12500 (by norm_num) (by norm_num)]
  have hdev : quantise_currency ((25 : ℚ) * 4) = 100 := by
    rw [show (25 : ℚ) * 4 = 100 by norm_num, quantise_currency,
      quantise_fix 100 10000 (by norm_num) (by norm_num)]
  have hf25 : format_currency 25 = "£25.00" := by
    rw [format_currency_eval 25 2500 (by norm_num) (by norm_num)]
    rfl
  have hf100 : format_currency 100 = "£100.00" := by
    rw [format_currency_eval 100 10000 (by norm_num) (by norm_num)]
    rfl
  have hf125 : format_currency 125 = "£125.00" := by
    rw [format_currency_eval 125 12500 (by norm_num) (by norm_num)]
    rfl
  simp only [submit_requirements, reqFieldMissing, hn, he, hp, hr, h4, h10, hm,
    hdev, hf25, hf100, hf125]
  simp +decide

/-- Witness for C8 at concrete non-blank identity fields. -/
theorem requirements_estimate_example_witness :
    submit_requirements 25
      ⟨some "Alice", some "alice@example.com", some "Web App",
        some "A five page brochure site", some "4", some "10"⟩
      true true true true =
      RequirementsOutcome.success "£25.00" "£100.00" "£125.00" 10 :=
  requirements_estimate_example "Alice" "alice@example.com" "Web App"
    "A five page brochure site" (by decide) (by decide) (by decide) (by decide)

/-- C9 counterexample: `page_count` is one of the endpoint's required
fields, so a submission without it is rejected with the 400 missing-fields
response — it is not silently coerced to 0 and priced as a 0-page quote. -/
theorem page_count_missing_counterexample :
    submit_requirements 25 ⟨some "Alice", some "a@b.c", some "web", some "site",
      some "4", none⟩ true true true true =
      RequirementsOutcome.badRequest
        "Please complete all required fields before submitting the form." := rfl

/-- C9 amended: a `page_count` that is present and non-blank but non-numeric
or negative is silently coerced to 0, yielding a quote priced for 0 pages
(no 400); `_parse_positive_int` never returns a negative value for a
nonnegative default, so `maintenance_cost` is never invoked with a negative
argument by this endpoint and its InvalidArgument branch is unreachable
there; a missing (or blank) `page_count`, however, is rejected with the 400
missing-fields response. -/
theorem page_count_coercion_amended :
    (∀ (v : Option String) (d : ℤ), 0 ≤ d → 0 ≤ parse_positive_int v d) ∧
    (∀ (rate : ℚ) (form : RequirementsForm) (a b c d : Bool) (msg : String),
      submit_requirements rate form a b c d ≠ RequirementsOutcome.internalError msg) ∧
    submit_requirements 25 ⟨some "Alice", some "a@b.c", some "web", some "site",
      some "4", some "abc"⟩ true true true true =
      RequirementsOutcome.success "£25.00" "£100.00" "£25.00" 0 ∧
    submit_requirements 25 ⟨some "Alice", some "a@b.c", some "web", some "site",
      some "4", some "-3"⟩ true true true true =
      RequirementsOutcome.success "£25.00" "£100.00" "£25.00" 0 := by
  have hm0 : maintenance_cost 0 = Except.ok 25 := by
    rw [maintenance_cost_eval 0 le_rfl]
    have hval : BASE_APP_FEE + PER_PAGE_FEE * ((0 : ℤ) : ℚ) = 25 := by
      norm_num [BASE_APP_FEE, PER_PAGE_FEE]
    rw [hval, quantise_fix 25 2500 (by norm_num) (by norm_num)]
  have hdev : quantise_currency ((25 : ℚ) * 4) = 100 := by
    rw [show (25 : ℚ) * 4 = 100 by norm_num, quantise_currency,
      quantise_fix 100 10000 (by norm_num) (by norm_num)]
  have hf25 : format_currency 25 = "£25.00" := by
    rw [format_currency_eval 25 2500 (by norm_num) (by norm_num)]
    rfl
  have hf100 : format_currency 100 = "£100.00" := by
    rw [format_currency_eval 100 10000 (by norm_num) (by norm_num)]
    rfl
  have h4 : parse_positive_decimal (stripped (some "4")) = some 4 := rfl
  have habc : parse_positive_int (stripped (some "abc")) 0 = 0 := rfl
  have hneg : parse_positive_int (stripped (some "-3")) 0 = 0 := rfl
  refine ⟨parse_positive_int_nonneg, fun rate form a b c d msg => ?_, ?_, ?_⟩
  · have h0 : 0 ≤ parse_positive_int (stripped form.page_count) 0 :=
      parse_positive_int_nonneg _ _ le_rfl
    have hm := maintenance_cost_eval _ h0
    simp only [submit_requirements, hm]
    split
    · simp
    · split
      · simp
      · split
        · simp
        · split
          · simp
          · split <;> simp
  · simp only [submit_requirements, reqFieldMissing, h4, habc, hm0, hdev,
      hf25, hf100]
    simp +decide
  · simp only [submit_requirements, reqFieldMissing, h4, hneg, hm0, hdev,
      hf25, hf100]
    simp +decide

/-- Witness for C9 amended: the nonnegativity guarantee at a concrete
negative input and the unreachability of the InvalidArgument branch at a
concrete submission. -/
theorem page_count_coercion_amended_witness :
    0 ≤ parse_positive_int (some "-7") 0 ∧
    submit_requirements 25 ⟨some "A", some "e@f.g", some "w", some "s",
      some "1", some "2"⟩ true true true true ≠
      RequirementsOutcome.internalError "page_count cannot be negative" :=
  ⟨page_count_coercion_amended.1 (some "-7") 0 le_rfl,
    page_count_coercion_amended.2.1 25
      ⟨some "A", some "e@f.g", some "w", some "s", some "1", some "2"⟩
      true true true true "page_count cannot be negative"⟩
